import Mathlib

/-!
Verification development for the `auth-taller` repository: a NestJS
authentication workshop consisting of `UsersService` (in-memory user store),
`AuthService` (register / login / getProfile) and `UsersController`
(GET /users, GET /users/:id).  The TypeScript source is embedded shallowly:
the mutable `users` array and `idCounter` of `UsersService` become an explicit
`UsersState` threaded through the operations, thrown NestJS exceptions become
`Except NestException`, and the external `bcrypt` and `JwtService`
collaborators (whose code is not part of the repository) are modelled from the
specification's contracts.
-/

namespace AuthTaller

/-- The entity `User` from `src/users/entities/user.entity.ts`: id, username,
email, bcrypt-hashed password, active flag and the two audit timestamps
(modelled as natural-number timestamps). -/
structure User where
  id : Nat
  username : String
  email : String
  password : String
  isActive : Bool
  createdAt : Nat
  updatedAt : Nat
deriving DecidableEq, Repr

/-- `Omit<User, 'password'>`: the public shape of an account, produced by the
destructuring `const \x7b password, ...rest \x7d = user` in the source. -/
structure PublicUser where
  id : Nat
  username : String
  email : String
  isActive : Bool
  createdAt : Nat
  updatedAt : Nat
deriving DecidableEq, Repr

/-- The destructuring `(\x7b password, ...rest \x7d) => rest` used by
`UsersService.findAll`, `AuthService.register`, `AuthService.login` and
`AuthService.getProfile` to drop the password field. -/
def stripPassword (u : User) : PublicUser :=
  { id := u.id, username := u.username, email := u.email,
    isActive := u.isActive, createdAt := u.createdAt, updatedAt := u.updatedAt }

/-- The mutable fields of `UsersService` (`users.service.ts`): the private
`users` array simulating a table, and the auto-increment `idCounter`. -/
structure UsersState where
  users : List User
  idCounter : Nat
deriving DecidableEq, Repr

/-- The initial state of `UsersService`: `users = []`, `idCounter = 1`. -/
def initialState : UsersState :=
  { users := [], idCounter := 1 }

/-- Argument record of `UsersService.create`
(`Omit<User, 'id' | 'createdAt'>`). -/
structure CreateData where
  username : String
  email : String
  password : String
  isActive : Bool
  updatedAt : Nat
deriving DecidableEq, Repr

namespace UsersService

/-- `UsersService.create`: assigns `id := idCounter` (post-increment), sets
`createdAt := now`, pushes the new user onto the array and returns it.  The
pair is (returned user, state after the call). -/
def create (s : UsersState) (d : CreateData) (now : Nat) : User × UsersState :=
  let newUser : User :=
    { id := s.idCounter, username := d.username, email := d.email,
      password := d.password, isActive := d.isActive,
      createdAt := now, updatedAt := d.updatedAt }
  (newUser, { users := s.users ++ [newUser], idCounter := s.idCounter + 1 })

/-- `UsersService.findByEmail`: `users.find(user => user.email === email)`,
returning `undefined` (here `none`) when no user matches. -/
def findByEmail (s : UsersState) (email : String) : Option User :=
  s.users.find? (fun user => user.email == email)

/-- `UsersService.findById`: `users.find(user => user.id === id)`. -/
def findById (s : UsersState) (id : Nat) : Option User :=
  s.users.find? (fun user => user.id == id)

/-- `UsersService.findAll`: `users.map((\x7b password, ...rest \x7d) => rest)`
— every stored user with the password field stripped, in insertion order. -/
def findAll (s : UsersState) : List PublicUser :=
  s.users.map stripPassword

end UsersService

/-- Modelled from the spec: the `bcrypt` library is an external collaborator
(not in the repository's source).  A hash string has the fixed format
`$2b$10$<salt>$<digest>`; here the randomized salt is an explicit `Nat`
entropy input rendered as a run of `salt` copies of `x`, and the digest is a
reversible per-character transformation standing in for the one-way digest
(one-wayness is not among the verified properties; salt dependence, format and
verification are). -/
def shiftChar (c : Char) : Char :=
  Char.ofNat (c.toNat + 1)

/-- Character list underlying a modelled bcrypt hash of `plaintext` under
`salt`. -/
def bcryptHashData (plaintext : String) (salt : Nat) : List Char :=
  "$2b$10$".data ++ List.replicate salt 'x' ++ '$' :: plaintext.data.map shiftChar

/-- Modelled from the spec: `bcrypt.hash(plaintext, 10)` — salted, fixed-format
output embedding the salt; each call draws a fresh random salt, passed here
explicitly as the `salt` entropy input. -/
def bcryptHash (plaintext : String) (salt : Nat) : String :=
  ⟨bcryptHashData plaintext salt⟩

/-- Modelled from the spec: salt extraction performed inside
`bcrypt.compare` — reads the salt embedded in the stored hash; returns `none`
for a string not carrying the `$2b$10$` format marker. -/
def bcryptParseSalt (stored : String) : Option Nat :=
  if stored.data.take 7 = "$2b$10$".data then
    some (((stored.data.drop 7).takeWhile (fun c => c == 'x')).length)
  else
    none

/-- Modelled from the spec: `bcrypt.compare(plaintext, stored)` — recomputes
the hash of `plaintext` using the salt embedded in `stored` and compares with
`stored`; returns `false` (rather than faulting) on a malformed `stored`. -/
def bcryptCompare (plaintext stored : String) : Bool :=
  match bcryptParseSalt stored with
  | none => false
  | some salt => stored == bcryptHash plaintext salt

/-- The JWT payload built by `AuthService.login` before signing:
`\x7b sub: user.id, email: user.email, username: user.username \x7d`. -/
structure JwtPayload where
  sub : Nat
  email : String
  username : String
deriving DecidableEq, Repr

/-- The claims a signed token decodes to: the login payload plus the
`iat` / `exp` timestamps added at signing. -/
structure JwtClaims where
  sub : Nat
  email : String
  username : String
  iat : Nat
  exp : Nat
deriving DecidableEq, Repr

/-- The token lifetime: 24 hours in seconds (the `expiresIn: '24h'`
configuration of the JWT module, which is outside the provided source). -/
def tokenLifetime : Nat := 24 * 60 * 60

/-- Modelled from the spec: `jwtService.sign(payload)` — timestamps issued-at
as now and expiry as now + 24h and signs with the process-wide secret.  The
`JwtService` implementation and its expiry configuration are not in the
repository's source; the token is modelled by the claims it decodes to. -/
def jwtSign (payload : JwtPayload) (now : Nat) : JwtClaims :=
  { sub := payload.sub, email := payload.email, username := payload.username,
    iat := now, exp := now + tokenLifetime }

/-- The exception classes imported from `@nestjs/common` and thrown by
`AuthService` (`ConflictException` 409, `UnauthorizedException` 401,
`NotFoundException` 404), each carrying its message string. -/
inductive NestException where
  | conflictException (message : String)
  | unauthorizedException (message : String)
  | notFoundException (message : String)
deriving DecidableEq, Repr

/-- The class (constructor) name of a thrown exception, as imported from
`@nestjs/common`. -/
def NestException.className : NestException → String
  | .conflictException _ => "ConflictException"
  | .unauthorizedException _ => "UnauthorizedException"
  | .notFoundException _ => "NotFoundException"

/-- The message carried by a thrown exception. -/
def NestException.message : NestException → String
  | .conflictException m => m
  | .unauthorizedException m => m
  | .notFoundException m => m

/-- The names of the exception classes `AuthService` imports from the
`@nestjs/common` framework module. -/
def nestjsCommonExceptionClasses : List String :=
  ["ConflictException", "UnauthorizedException", "NotFoundException"]

/-- `RegisterDto`: username, email, plaintext password. -/
structure RegisterDto where
  username : String
  email : String
  password : String
deriving DecidableEq, Repr

/-- `LoginDto`: email, plaintext password. -/
structure LoginDto where
  email : String
  password : String
deriving DecidableEq, Repr

/-- Success payload of `AuthService.register`. -/
structure RegisterResponse where
  message : String
  user : PublicUser
deriving DecidableEq, Repr

/-- Success payload of `AuthService.login`. -/
structure LoginResponse where
  message : String
  access_token : JwtClaims
  user : PublicUser
deriving DecidableEq, Repr

namespace AuthService

/-- `AuthService.register`: 1. reject when the email is already present
(`ConflictException 'El email ya está registrado'`); 2. reject when the
username is already present, checked through
`usersService.findAll().find(user => user.username === username)`
(`ConflictException 'El nombre de usuario ya está en uso'`);
3. hash the password with `bcrypt.hash(password, 10)` (the per-call random
salt is the explicit `salt` input); 4. create the user with
`isActive := true`; 5. return the success payload with the password field
stripped.  The pair is (thrown exception or response, state after the call). -/
def register (s : UsersState) (dto : RegisterDto) (salt : Nat) (now : Nat) :
    Except NestException RegisterResponse × UsersState :=
  match UsersService.findByEmail s dto.email with
  | some _ => (.error (.conflictException "El email ya está registrado"), s)
  | none =>
    match (UsersService.findAll s).find? (fun user => user.username == dto.username) with
    | some _ => (.error (.conflictException "El nombre de usuario ya está en uso"), s)
    | none =>
      let hashedPassword := bcryptHash dto.password salt
      let created := UsersService.create s
        { username := dto.username, email := dto.email,
          password := hashedPassword, isActive := true, updatedAt := now } now
      (.ok { message := "Usuario registrado exitosamente",
             user := stripPassword created.fst }, created.snd)

/-- `AuthService.login`: 1. look up the user by email; when absent throw
`UnauthorizedException 'Credenciales inválidas'`; 2. when `isActive` is false
throw `UnauthorizedException 'Usuario desactivado. Contacte al administrador.'`;
3. when `bcrypt.compare(password, user.password)` fails throw
`UnauthorizedException 'Credenciales inválidas'` again; 4. build the payload
`\x7b sub, email, username \x7d`, sign it, and return the success payload with
the password stripped.  No path touches the store. -/
def login (s : UsersState) (dto : LoginDto) (now : Nat) :
    Except NestException LoginResponse × UsersState :=
  match UsersService.findByEmail s dto.email with
  | none => (.error (.unauthorizedException "Credenciales inválidas"), s)
  | some user =>
    if !user.isActive then
      (.error (.unauthorizedException "Usuario desactivado. Contacte al administrador."), s)
    else if !bcryptCompare dto.password user.password then
      (.error (.unauthorizedException "Credenciales inválidas"), s)
    else
      let payload : JwtPayload :=
        { sub := user.id, email := user.email, username := user.username }
      let access_token := jwtSign payload now
      (.ok { message := "Login exitoso", access_token := access_token,
             user := stripPassword user }, s)

/-- `AuthService.getProfile`: look up by id; when absent throw
`NotFoundException 'Usuario no encontrado'`; otherwise return the user with
the password stripped.  No path touches the store. -/
def getProfile (s : UsersState) (userId : Nat) :
    Except NestException PublicUser × UsersState :=
  match UsersService.findById s userId with
  | none => (.error (.notFoundException "Usuario no encontrado"), s)
  | some user => (.ok (stripPassword user), s)

end AuthService

namespace UsersController

/-- `UsersController.findAll` (GET /users): returns
`usersService.findAll()`. -/
def findAll (s : UsersState) : List PublicUser :=
  UsersService.findAll s

/-- `UsersController.findOne` (GET /users/:id): returns
`usersService.findById(+id)` — the full stored record, password included,
or `undefined`. -/
def findOne (s : UsersState) (id : Nat) : Option User :=
  UsersService.findById s id

end UsersController

/-- States of the `UsersService` store reachable from the initial state by
any sequence of the exposed operations.  Only `AuthService.register` can
mutate the store; `login` and `getProfile` are included as (state-preserving)
steps, and the controller's `findAll` / `findOne` are pure reads. -/
inductive Reachable : UsersState → Prop where
  | init : Reachable initialState
  | registerStep (s : UsersState) (dto : RegisterDto) (salt now : Nat) :
      Reachable s → Reachable (AuthService.register s dto salt now).snd
  | loginStep (s : UsersState) (dto : LoginDto) (now : Nat) :
      Reachable s → Reachable (AuthService.login s dto now).snd
  | profileStep (s : UsersState) (userId : Nat) :
      Reachable s → Reachable (AuthService.getProfile s userId).snd

/-- The store invariant maintained by the operations: pairwise-distinct emails
and usernames, ids exactly `1, 2, ..., n` in insertion order, and the id
counter one past the last assigned id. -/
def StoreInvariant (s : UsersState) : Prop :=
  s.users.Pairwise (fun a b => a.email ≠ b.email ∧ a.username ≠ b.username) ∧
  s.users.map User.id = List.range' 1 s.users.length ∧
  s.idCounter = s.users.length + 1

/-- The JSON values the HTTP layer serializes response objects into; used to
state field-presence properties of the payloads. -/
inductive Json where
  | null
  | str (s : String)
  | num (n : Nat)
  | bool (b : Bool)
  | obj (fields : List (String × Json))
  | arr (elems : List Json)

mutual

/-- Whether the serialized value contains an object field named `k`, at any
nesting depth. -/
def Json.hasKey : Json → String → Bool
  | .null, _ => false
  | .str _, _ => false
  | .num _, _ => false
  | .bool _, _ => false
  | .obj fields, k => Json.fieldsHaveKey fields k
  | .arr elems, k => Json.elemsHaveKey elems k

/-- `Json.hasKey` over an object's field list. -/
def Json.fieldsHaveKey : List (String × Json) → String → Bool
  | [], _ => false
  | (key, v) :: rest, k => key == k || v.hasKey k || Json.fieldsHaveKey rest k

/-- `Json.hasKey` over an array's element list. -/
def Json.elemsHaveKey : List Json → String → Bool
  | [], _ => false
  | v :: rest, k => v.hasKey k || Json.elemsHaveKey rest k

end

/-- Serialization of a password-stripped account, as produced by `register`,
`login`, `getProfile` and `findAll` responses. -/
def PublicUser.toJson (u : PublicUser) : Json :=
  .obj [("id", .num u.id), ("username", .str u.username), ("email", .str u.email),
        ("isActive", .bool u.isActive), ("createdAt", .num u.createdAt),
        ("updatedAt", .num u.updatedAt)]

/-- Serialization of a full stored account, as returned by the users
controller's `findOne` (GET /users/:id): the `password` field is present. -/
def User.toJson (u : User) : Json :=
  .obj [("id", .num u.id), ("username", .str u.username), ("email", .str u.email),
        ("password", .str u.password), ("isActive", .bool u.isActive),
        ("createdAt", .num u.createdAt), ("updatedAt", .num u.updatedAt)]

/-- Serialization of the claims a signed token decodes to. -/
def JwtClaims.toJson (c : JwtClaims) : Json :=
  .obj [("sub", .num c.sub), ("email", .str c.email), ("username", .str c.username),
        ("iat", .num c.iat), ("exp", .num c.exp)]

/-- Serialization of the `register` success payload
`\x7b message, user \x7d`. -/
def RegisterResponse.toJson (r : RegisterResponse) : Json :=
  .obj [("message", .str r.message), ("user", r.user.toJson)]

/-- Serialization of the `login` success payload
`\x7b message, access_token, user \x7d`. -/
def LoginResponse.toJson (r : LoginResponse) : Json :=
  .obj [("message", .str r.message), ("access_token", r.access_token.toJson),
        ("user", r.user.toJson)]

/-- Serialization of the `findAll` (GET /users) response array. -/
def findAllToJson (l : List PublicUser) : Json :=
  .arr (l.map PublicUser.toJson)

/-- Serialization of the `findOne` (GET /users/:id) response: the full record
when found, empty body otherwise. -/
def findOneToJson : Option User → Json
  | none => .null
  | some u => u.toJson

/-- The concrete registration from the spec's scenario. -/
def sampleDto : RegisterDto :=
  { username := "juanperez", email := "juan@test.com", password := "miPassword123" }

/-- State after registering `sampleDto` into the empty store (salt entropy 3,
time 0); reachable by construction. -/
def sampleState : UsersState :=
  (AuthService.register initialState sampleDto 3 0).snd

/-- The account stored in `sampleState`. -/
def sampleUser : User :=
  { id := 1, username := "juanperez", email := "juan@test.com",
    password := bcryptHash "miPassword123" 3, isActive := true,
    createdAt := 0, updatedAt := 0 }

/-- The account of `sampleState` with its active flag cleared, and a
one-account store holding it: fixture for the disabled-login behaviour. -/
def disabledUser : User :=
  { id := 1, username := "juanperez", email := "juan@test.com",
    password := bcryptHash "miPassword123" 2, isActive := false,
    createdAt := 0, updatedAt := 0 }

/-- A store whose only account is deactivated. -/
def disabledState : UsersState :=
  { users := [disabledUser], idCounter := 2 }

deriving instance DecidableEq for Except

lemma mem_of_findByEmail_none {s : UsersState} {email : String}
    (h : UsersService.findByEmail s email = none) :
    ∀ u ∈ s.users, u.email ≠ email := by
  rw [UsersService.findByEmail, List.find?_eq_none] at h
  intro u hu
  simpa using h u hu

lemma mem_of_findAll_username_none {s : UsersState} {username : String}
    (h : (UsersService.findAll s).find? (fun user => user.username == username) = none) :
    ∀ u ∈ s.users, u.username ≠ username := by
  rw [List.find?_eq_none] at h
  intro u hu
  have hmem : stripPassword u ∈ UsersService.findAll s :=
    List.mem_map_of_mem stripPassword hu
  simpa [stripPassword] using h (stripPassword u) hmem

lemma login_state_id (s : UsersState) (dto : LoginDto) (now : Nat) :
    (AuthService.login s dto now).snd = s := by
  unfold AuthService.login
  cases UsersService.findByEmail s dto.email with
  | none => rfl
  | some user =>
    cases hA : user.isActive <;>
      cases hC : bcryptCompare dto.password user.password <;>
        simp [hA, hC]

lemma getProfile_state_id (s : UsersState) (uid : Nat) :
    (AuthService.getProfile s uid).snd = s := by
  unfold AuthService.getProfile
  cases UsersService.findById s uid with
  | none => rfl
  | some user => rfl

lemma register_error_state (s : UsersState) (dto : RegisterDto) (salt now : Nat)
    (e : NestException)
    (h : (AuthService.register s dto salt now).fst = .error e) :
    (AuthService.register s dto salt now).snd = s := by
  unfold AuthService.register at h ⊢
  cases hE : UsersService.findByEmail s dto.email with
  | some u => simp [hE]
  | none =>
    cases hU : (UsersService.findAll s).find? (fun user => user.username == dto.username) with
    | some u => simp [hE, hU]
    | none => simp [hE, hU] at h

/-- C1: in every store state, login with an unknown email and login with a
known active email but a failing password verification both produce the same
thrown value, `UnauthorizedException` with the byte-identical message
`Credenciales inválidas`; neither path carries a distinct email-not-found
signal. -/
theorem login_invalid_credentials_uniform
    (s s' : UsersState) (dto dto' : LoginDto) (now now' : Nat) (u : User)
    (h1 : UsersService.findByEmail s dto.email = none)
    (h2 : UsersService.findByEmail s' dto'.email = some u)
    (h3 : u.isActive = true)
    (h4 : bcryptCompare dto'.password u.password = false) :
    (AuthService.login s dto now).fst =
      .error (.unauthorizedException "Credenciales inválidas") ∧
    (AuthService.login s' dto' now').fst =
      .error (.unauthorizedException "Credenciales inválidas") := by
  constructor
  · unfold AuthService.login
    rw [h1]
  · unfold AuthService.login
    rw [h2]
    simp [h3, h4]

/-- C4: when both the email and the username of a registration collide with
stored accounts, register reports the email conflict
(`El email ya está registrado`), never the username one: the email check runs
first, for every store state and input. -/
theorem register_email_conflict_precedence
    (s : UsersState) (dto : RegisterDto) (salt now : Nat) (u : User) (v : PublicUser)
    (hEmail : UsersService.findByEmail s dto.email = some u)
    (hUsername : (UsersService.findAll s).find?
        (fun user => user.username == dto.username) = some v) :
    (AuthService.register s dto salt now).fst =
      .error (.conflictException "El email ya está registrado") := by
  unfold AuthService.register
  rw [hEmail]

/-- C5: login against a stored account whose `isActive` flag is false throws
`Usuario desactivado. Contacte al administrador.` and never succeeds, for
every supplied password — in particular for one whose verification against the
stored hash would succeed, since the disabled check precedes verification. -/
theorem login_disabled_account
    (s : UsersState) (dto : LoginDto) (now : Nat) (u : User)
    (hFind : UsersService.findByEmail s dto.email = some u)
    (hInactive : u.isActive = false) :
    (AuthService.login s dto now).fst =
      .error (.unauthorizedException "Usuario desactivado. Contacte al administrador.") ∧
    ∀ r : LoginResponse, (AuthService.login s dto now).fst ≠ .ok r := by
  have h : (AuthService.login s dto now).fst =
      .error (.unauthorizedException "Usuario desactivado. Contacte al administrador.") := by
    unfold AuthService.login
    rw [hFind]
    simp [hInactive]
  refine ⟨h, fun r hr => ?_⟩
  rw [h] at hr
  exact Except.noConfusion hr

/-- C10: the duplicate checks of register precede the create, so a register
that throws leaves the user collection and the id counter exactly as before;
login and getProfile leave the store unchanged on every path. -/
theorem failure_paths_leave_store_unchanged
    (s : UsersState) (dto : RegisterDto) (ldto : LoginDto)
    (salt now now' uid : Nat) :
    (∀ e : NestException, (AuthService.register s dto salt now).fst = .error e →
        (AuthService.register s dto salt now).snd = s) ∧
    (AuthService.login s ldto now').snd = s ∧
    (AuthService.getProfile s uid).snd = s :=
  ⟨fun e he => register_error_state s dto salt now e he,
   login_state_id s ldto now', getProfile_state_id s uid⟩

/-- Witness for C1: the unknown-email path in the initial store and the
wrong-password path in the one-account store produce the identical error. -/
theorem login_invalid_credentials_uniform_witness :
    (AuthService.login initialState ⟨"nadie@test.com", "pw"⟩ 0).fst =
      .error (.unauthorizedException "Credenciales inválidas") ∧
    (AuthService.login sampleState ⟨"juan@test.com", "wrong"⟩ 5).fst =
      .error (.unauthorizedException "Credenciales inválidas") :=
  login_invalid_credentials_uniform initialState sampleState
    ⟨"nadie@test.com", "pw"⟩ ⟨"juan@test.com", "wrong"⟩ 0 5 sampleUser
    (by decide) (by decide) (by decide) (by decide)

/-- Witness for C4: registering a fully colliding username-and-email pair into
the one-account store reports the email conflict. -/
theorem register_email_conflict_precedence_witness :
    (AuthService.register sampleState ⟨"juanperez", "juan@test.com", "p"⟩ 0 0).fst =
      .error (.conflictException "El email ya está registrado") :=
  register_email_conflict_precedence sampleState
    ⟨"juanperez", "juan@test.com", "p"⟩ 0 0
    sampleUser (stripPassword sampleUser) (by decide) (by decide)

/-- Witness for C5: the stored password of the deactivated account verifies
against the submitted plaintext, and login still throws the disabled error. -/
theorem login_disabled_account_witness :
    bcryptCompare "miPassword123" disabledUser.password = true ∧
    (AuthService.login disabledState ⟨"juan@test.com", "miPassword123"⟩ 0).fst =
      .error (.unauthorizedException "Usuario desactivado. Contacte al administrador.") :=
  ⟨by decide,
   (login_disabled_account disabledState ⟨"juan@test.com", "miPassword123"⟩ 0
     disabledUser (by decide) (by decide)).1⟩

/-- Witness for C10 at concrete failing inputs on the one-account store. -/
theorem failure_paths_leave_store_unchanged_witness :
    (AuthService.register sampleState ⟨"x", "juan@test.com", "p"⟩ 0 0).snd = sampleState ∧
    (AuthService.login sampleState ⟨"juan@test.com", "wrong"⟩ 0).snd = sampleState ∧
    (AuthService.getProfile sampleState 9).snd = sampleState :=
  ⟨(failure_paths_leave_store_unchanged sampleState ⟨"x", "juan@test.com", "p"⟩
      ⟨"juan@test.com", "wrong"⟩ 0 0 0 9).1
      (.conflictException "El email ya está registrado") (by decide),
   (failure_paths_leave_store_unchanged sampleState ⟨"x", "juan@test.com", "p"⟩
      ⟨"juan@test.com", "wrong"⟩ 0 0 0 9).2.1,
   (failure_paths_leave_store_unchanged sampleState ⟨"x", "juan@test.com", "p"⟩
      ⟨"juan@test.com", "wrong"⟩ 0 0 0 9).2.2⟩

/-- C6: a token issued by a successful login decodes to claims whose `sub`,
`email` and `username` equal the authenticated account's fields and whose
`exp` is exactly 24 hours after its `iat`. -/
theorem login_token_claims
    (s : UsersState) (dto : LoginDto) (now : Nat) (u : User) (r : LoginResponse)
    (hFind : UsersService.findByEmail s dto.email = some u)
    (hOk : (AuthService.login s dto now).fst = .ok r) :
    r.access_token.sub = u.id ∧ r.access_token.email = u.email ∧
    r.access_token.username = u.username ∧
    r.access_token.exp = r.access_token.iat + 24 * 60 * 60 := by
  unfold AuthService.login at hOk
  rw [hFind] at hOk
  cases hA : u.isActive with
  | false => simp [hA] at hOk
  | true =>
    cases hC : bcryptCompare dto.password u.password with
    | false => simp [hA, hC] at hOk
    | true =>
      simp only [hA, hC, Bool.not_true, Bool.false_eq_true, if_false] at hOk
      injection hOk with h
      rw [← h]
      simp [jwtSign, tokenLifetime]

/-- Witness for C6: the successful login against the one-account store. -/
theorem login_token_claims_witness :
    (jwtSign ⟨1, "juan@test.com", "juanperez"⟩ 7).sub = sampleUser.id ∧
    (jwtSign ⟨1, "juan@test.com", "juanperez"⟩ 7).email = sampleUser.email ∧
    (jwtSign ⟨1, "juan@test.com", "juanperez"⟩ 7).username = sampleUser.username ∧
    (jwtSign ⟨1, "juan@test.com", "juanperez"⟩ 7).exp =
      (jwtSign ⟨1, "juan@test.com", "juanperez"⟩ 7).iat + 24 * 60 * 60 :=
  login_token_claims sampleState ⟨"juan@test.com", "miPassword123"⟩ 7 sampleUser
    { message := "Login exitoso",
      access_token := jwtSign ⟨1, "juan@test.com", "juanperez"⟩ 7,
      user := stripPassword sampleUser }
    (by decide) (by decide)

/-- C9 counterexample: the duplicate-email failure of register is delivered by
throwing `ConflictException`, an exception class imported from the
`@nestjs/common` framework module — so failures are framework-specific
exception types, not plain data. -/
theorem register_failure_is_framework_exception :
    (AuthService.register sampleState ⟨"otro", "juan@test.com", "p"⟩ 0 0).fst =
      .error (.conflictException "El email ya está registrado") ∧
    NestException.className (.conflictException "El email ya está registrado") =
      "ConflictException" ∧
    "ConflictException" ∈ nestjsCommonExceptionClasses :=
  ⟨by decide, rfl, by simp [nestjsCommonExceptionClasses]⟩

/-- C9 amended: every business failure thrown by register, login and
getProfile is an instance of one of the three exception classes imported from
`@nestjs/common` (`ConflictException`, `UnauthorizedException`,
`NotFoundException`), each carrying its structured message — never an
unchecked fault. -/
theorem business_failures_are_nest_exceptions
    (s : UsersState) (dto : RegisterDto) (ldto : LoginDto)
    (salt now now' uid : Nat) (e1 e2 e3 : NestException)
    (h1 : (AuthService.register s dto salt now).fst = .error e1)
    (h2 : (AuthService.login s ldto now').fst = .error e2)
    (h3 : (AuthService.getProfile s uid).fst = .error e3) :
    e1.className ∈ nestjsCommonExceptionClasses ∧
    e2.className ∈ nestjsCommonExceptionClasses ∧
    e3.className ∈ nestjsCommonExceptionClasses := by
  refine ⟨?_, ?_, ?_⟩
  · cases e1 <;> simp [NestException.className, nestjsCommonExceptionClasses]
  · cases e2 <;> simp [NestException.className, nestjsCommonExceptionClasses]
  · cases e3 <;> simp [NestException.className, nestjsCommonExceptionClasses]

/-- Witness for the amended C9 at concrete failures of all three
operations. -/
theorem business_failures_are_nest_exceptions_witness :
    NestException.className (.conflictException "El email ya está registrado") ∈
      nestjsCommonExceptionClasses ∧
    NestException.className (.unauthorizedException "Credenciales inválidas") ∈
      nestjsCommonExceptionClasses ∧
    NestException.className (.notFoundException "Usuario no encontrado") ∈
      nestjsCommonExceptionClasses :=
  business_failures_are_nest_exceptions sampleState ⟨"otro", "juan@test.com", "p"⟩
    ⟨"nadie@test.com", "pw"⟩ 0 0 0 9
    (.conflictException "El email ya está registrado")
    (.unauthorizedException "Credenciales inválidas")
    (.notFoundException "Usuario no encontrado")
    (by decide) (by decide) (by decide)

lemma bcryptHashData_length (p : String) (s : Nat) :
    (bcryptHashData p s).length = 8 + s + p.data.length := by
  simp [bcryptHashData]
  omega

lemma takeWhile_x_replicate (n : Nat) (l : List Char) :
    ((List.replicate n 'x' ++ '$' :: l).takeWhile (fun c => c == 'x')) =
      List.replicate n 'x' := by
  induction n with
  | zero => simp [List.takeWhile_cons]
  | succ k ih => simp [List.replicate_succ, List.takeWhile_cons, ih]

lemma bcryptParseSalt_hash (p : String) (s : Nat) :
    bcryptParseSalt (bcryptHash p s) = some s := by
  unfold bcryptParseSalt bcryptHash bcryptHashData
  dsimp only
  rw [show (7 : Nat) = (['$', '2', 'b', '$', '1', '0', '$'] : List Char).length from rfl]
  simp only [List.append_assoc, List.take_left, List.drop_left, takeWhile_x_replicate]
  simp

lemma bcryptCompare_hash_self (p : String) (s : Nat) :
    bcryptCompare p (bcryptHash p s) = true := by
  unfold bcryptCompare
  rw [bcryptParseSalt_hash]
  simp

lemma bcryptHash_ne_of_salt_ne (p : String) (s1 s2 : Nat) (h : s1 ≠ s2) :
    bcryptHash p s1 ≠ bcryptHash p s2 := by
  intro heq
  have hd : bcryptHashData p s1 = bcryptHashData p s2 := congrArg String.data heq
  have hl := congrArg List.length hd
  rw [bcryptHashData_length, bcryptHashData_length] at hl
  omega

lemma bcryptHash_ne_plaintext (p : String) (s : Nat) : bcryptHash p s ≠ p := by
  intro heq
  have hd : bcryptHashData p s = p.data := congrArg String.data heq
  have hl := congrArg List.length hd
  rw [bcryptHashData_length] at hl
  omega

/-- C8: two hasher calls on the same plaintext with distinct per-call salts
produce two different hash strings, neither hash ever equals the plaintext,
and both hashes verify successfully against that plaintext. -/
theorem bcrypt_hash_salt_properties (p : String) (s1 s2 : Nat) (h : s1 ≠ s2) :
    bcryptHash p s1 ≠ bcryptHash p s2 ∧
    bcryptHash p s1 ≠ p ∧ bcryptHash p s2 ≠ p ∧
    bcryptCompare p (bcryptHash p s1) = true ∧
    bcryptCompare p (bcryptHash p s2) = true :=
  ⟨bcryptHash_ne_of_salt_ne p s1 s2 h, bcryptHash_ne_plaintext p s1,
   bcryptHash_ne_plaintext p s2, bcryptCompare_hash_self p s1,
   bcryptCompare_hash_self p s2⟩

/-- Witness for C8 at the spec's concrete password and salts 0 and 1. -/
theorem bcrypt_hash_salt_properties_witness :
    (0 : Nat) ≠ 1 ∧
    (bcryptHash "miPassword123" 0 ≠ bcryptHash "miPassword123" 1 ∧
     bcryptHash "miPassword123" 0 ≠ "miPassword123" ∧
     bcryptHash "miPassword123" 1 ≠ "miPassword123" ∧
     bcryptCompare "miPassword123" (bcryptHash "miPassword123" 0) = true ∧
     bcryptCompare "miPassword123" (bcryptHash "miPassword123" 1) = true) :=
  ⟨by decide, bcrypt_hash_salt_properties "miPassword123" 0 1 (by decide)⟩

lemma invariant_initial : StoreInvariant initialState := by
  refine ⟨List.Pairwise.nil, rfl, rfl⟩

lemma invariant_register (s : UsersState) (dto : RegisterDto) (salt now : Nat)
    (h : StoreInvariant s) :
    StoreInvariant (AuthService.register s dto salt now).snd := by
  obtain ⟨hPw, hIds, hCtr⟩ := h
  unfold AuthService.register
  cases hE : UsersService.findByEmail s dto.email with
  | some u => exact ⟨hPw, hIds, hCtr⟩
  | none =>
    cases hU : (UsersService.findAll s).find? (fun user => user.username == dto.username) with
    | some u => exact ⟨hPw, hIds, hCtr⟩
    | none =>
      have hEmailFree := mem_of_findByEmail_none hE
      have hUsernameFree := mem_of_findAll_username_none hU
      simp only [UsersService.create]
      refine ⟨?_, ?_, ?_⟩
      · rw [List.pairwise_append]
        refine ⟨hPw, List.pairwise_singleton _ _, ?_⟩
        intro a ha b hb
        rw [List.mem_singleton] at hb
        subst hb
        exact ⟨hEmailFree a ha, hUsernameFree a ha⟩
      · rw [List.map_append, hIds, List.length_append, hCtr]
        simp [List.range'_1_concat, Nat.add_comm]
      · simp [hCtr, List.length_append]

lemma reachable_invariant (s : UsersState) (h : Reachable s) : StoreInvariant s := by
  induction h with
  | init => exact invariant_initial
  | registerStep s dto salt now _ ih => exact invariant_register s dto salt now ih
  | loginStep s dto now _ ih => rw [login_state_id]; exact ih
  | profileStep s uid _ ih => rw [getProfile_state_id]; exact ih

/-- C3: in every state reachable by any sequence of the exposed operations,
no two stored accounts share an email and no two share a username. -/
theorem store_identity_uniqueness (s : UsersState) (h : Reachable s) :
    s.users.Pairwise (fun a b => a.email ≠ b.email) ∧
    s.users.Pairwise (fun a b => a.username ≠ b.username) := by
  obtain ⟨hPw, -, -⟩ := reachable_invariant s h
  exact ⟨hPw.imp fun hab => hab.1, hPw.imp fun hab => hab.2⟩

/-- Witness for C3: the reachable one-account store. -/
theorem store_identity_uniqueness_witness :
    sampleState.users.Pairwise (fun a b => a.email ≠ b.email) ∧
    sampleState.users.Pairwise (fun a b => a.username ≠ b.username) :=
  store_identity_uniqueness sampleState
    (Reachable.registerStep initialState sampleDto 3 0 Reachable.init)

/-- C7: across any reachable state, the stored ids are strictly increasing in
creation order (so never reused), and the first account created has id 1. -/
theorem account_ids_strictly_increasing (s : UsersState) (h : Reachable s) :
    List.Pairwise (fun i j => i < j) (s.users.map User.id) ∧
    ∀ u : User, s.users.head? = some u → u.id = 1 := by
  obtain ⟨-, hIds, -⟩ := reachable_invariant s h
  constructor
  · rw [hIds]
    exact List.pairwise_lt_range' 1 s.users.length
  · intro u hu
    have hh : (s.users.map User.id).head? = some u.id := by
      rw [List.head?_map, hu]
      rfl
    rw [hIds] at hh
    cases hn : s.users.length with
    | zero =>
      rw [hn] at hh
      simp at hh
    | succ k =>
      rw [hn, List.range'_succ] at hh
      simp at hh
      omega

/-- Witness for C7: the reachable one-account store; its single account has
id 1. -/
theorem account_ids_strictly_increasing_witness :
    List.Pairwise (fun i j => i < j) (sampleState.users.map User.id) ∧
    ∀ u : User, sampleState.users.head? = some u → u.id = 1 :=
  account_ids_strictly_increasing sampleState
    (Reachable.registerStep initialState sampleDto 3 0 Reachable.init)

lemma hasKey_obj (fields : List (String × Json)) (k : String) :
    (Json.obj fields).hasKey k = Json.fieldsHaveKey fields k := by
  simp [Json.hasKey]

lemma hasKey_arr (elems : List Json) (k : String) :
    (Json.arr elems).hasKey k = Json.elemsHaveKey elems k := by
  simp [Json.hasKey]

lemma hasKey_str (t k : String) : (Json.str t).hasKey k = false := by
  simp [Json.hasKey]

lemma hasKey_publicUser (u : PublicUser) :
    (PublicUser.toJson u).hasKey "password" = false := by
  simp [PublicUser.toJson, Json.hasKey, Json.fieldsHaveKey]

lemma hasKey_claims (c : JwtClaims) :
    (JwtClaims.toJson c).hasKey "password" = false := by
  simp [JwtClaims.toJson, Json.hasKey, Json.fieldsHaveKey]

lemma elemsHaveKey_publicUsers (l : List PublicUser) :
    Json.elemsHaveKey (l.map PublicUser.toJson) "password" = false := by
  induction l with
  | nil => simp [Json.elemsHaveKey]
  | cons u rest ih => simp [Json.elemsHaveKey, hasKey_publicUser, ih]

/-- C2 counterexample: the users controller's findOne response (GET /users/:id)
for the stored account contains a `password` field, holding the stored bcrypt
hash — so not every response the system produces omits the password field. -/
theorem findOne_response_contains_password :
    (findOneToJson (UsersController.findOne sampleState 1)).hasKey "password" = true ∧
    (UsersController.findOne sampleState 1).map User.password =
      some (bcryptHash "miPassword123" 3) := by
  have hf : UsersController.findOne sampleState 1 = some sampleUser := by decide
  constructor
  · rw [hf]
    simp [findOneToJson, User.toJson, Json.hasKey, Json.fieldsHaveKey]
  · rw [hf]
    rfl

/-- C2 amended: the success payloads of register, login and getProfile, and
every element of the findAll response, omit the password field by
construction; the guarantee does not extend to every response the system
produces — the users controller's findOne returns the full record. -/
theorem service_responses_omit_password
    (s : UsersState) (dto : RegisterDto) (ldto : LoginDto)
    (salt now now' uid : Nat)
    (r1 : RegisterResponse) (r2 : LoginResponse) (p : PublicUser)
    (h1 : (AuthService.register s dto salt now).fst = .ok r1)
    (h2 : (AuthService.login s ldto now').fst = .ok r2)
    (h3 : (AuthService.getProfile s uid).fst = .ok p) :
    r1.toJson.hasKey "password" = false ∧
    r2.toJson.hasKey "password" = false ∧
    p.toJson.hasKey "password" = false ∧
    (findAllToJson (UsersService.findAll s)).hasKey "password" = false := by
  refine ⟨?_, ?_, ?_, ?_⟩
  · simp [RegisterResponse.toJson, hasKey_obj, Json.fieldsHaveKey, hasKey_publicUser,
      hasKey_str]
  · simp [LoginResponse.toJson, hasKey_obj, Json.fieldsHaveKey,
      hasKey_publicUser, hasKey_claims, hasKey_str]
  · exact hasKey_publicUser p
  · have h := elemsHaveKey_publicUsers (UsersService.findAll s)
    simpa [findAllToJson, hasKey_arr] using h

/-- Witness for the amended C2: a fresh registration, a successful login and a
profile read on the one-account store, plus its findAll array. -/
theorem service_responses_omit_password_witness :
    (RegisterResponse.toJson
      { message := "Usuario registrado exitosamente",
        user := { id := 2, username := "maria", email := "maria@test.com",
                  isActive := true, createdAt := 9, updatedAt := 9 } }).hasKey
      "password" = false ∧
    (LoginResponse.toJson
      { message := "Login exitoso",
        access_token := jwtSign ⟨1, "juan@test.com", "juanperez"⟩ 7,
        user := stripPassword sampleUser }).hasKey "password" = false ∧
    (PublicUser.toJson (stripPassword sampleUser)).hasKey "password" = false ∧
    (findAllToJson (UsersService.findAll sampleState)).hasKey "password" = false :=
  service_responses_omit_password sampleState
    ⟨"maria", "maria@test.com", "pw2"⟩ ⟨"juan@test.com", "miPassword123"⟩ 4 9 7 1
    { message := "Usuario registrado exitosamente",
      user := { id := 2, username := "maria", email := "maria@test.com",
                isActive := true, createdAt := 9, updatedAt := 9 } }
    { message := "Login exitoso",
      access_token := jwtSign ⟨1, "juan@test.com", "juanperez"⟩ 7,
      user := stripPassword sampleUser }
    (stripPassword sampleUser)
    (by decide) (by decide) (by decide)

end AuthTaller
